import Mathlib

/-!
Shallow embedding of `src/app.py` (arithmetic-sequence generator).

The computational core of the program is the pure function
`generate_arithmetic_sequence` (lines 15-19), the input validation in
`main` (lines 66-72), and the inline statistics block in `main`
(lines 124-136).  Python numbers are modelled by exact rationals `ℚ`
(the spec treats them as "real numbers"; all claims are about exact
values, with floating point only mentioned as a tolerance), and the
Python `int` parameter `num_terms` by `ℤ`.  `range(n)` over a Python
`int` yields the indices `0, ..., n-1` and is empty for `n ≤ 0`, which
`Int.toNat` reproduces.  Failure paths (the `st.error` early returns in
`main`, and the `IndexError` that `sequence[0]` would raise on an empty
list inside the statistics block) are modelled with `Except`.
-/

/-- Error outcomes surfaced by `main` in `src/app.py`:
`invalidInput` for the `num_terms <= 0` guard (line 66),
`tooManyTerms` for the `num_terms > 1000` guard (line 70), and
`emptySequence` for the failure of the statistics block on a
zero-length sequence (indexing `sequence[0]` of an empty list,
lines 124-136). -/
inductive AppError where
  | invalidInput
  | tooManyTerms
  | emptySequence
deriving DecidableEq, Repr

/-- `generate_arithmetic_sequence` from `src/app.py` lines 15-19:
starts from the empty list and, for each `i` in `range(num_terms)`,
appends `first_term + (i * common_difference)`. -/
def generate_arithmetic_sequence (first_term common_difference : ℚ)
    (num_terms : ℤ) : List ℚ :=
  (List.range num_terms.toNat).foldl
    (fun (sequence : List ℚ) (i : ℕ) =>
      sequence ++ [first_term + (i : ℚ) * common_difference])
    []

/-- The four scalar metrics computed by the statistics block of `main`
(`src/app.py` lines 124-136). -/
structure SequenceStatistics where
  first : ℚ
  last : ℚ
  sum_direct : ℚ
  sum_formula : ℚ
deriving DecidableEq, Repr

/-- The statistics block of `main` (`src/app.py` lines 124-136):
`sequence[0]`, `sequence[-1]`, `sum(sequence)` and
`(len(sequence) / 2) * (sequence[0] + sequence[-1])`.  On an empty
list, evaluating `sequence[0]` raises `IndexError` (caught by the
surrounding `except` block), so no statistics value is produced: this
is the `Except.error` branch. -/
def statistics (sequence : List ℚ) : Except AppError SequenceStatistics :=
  match sequence with
  | [] => Except.error AppError.emptySequence
  | x :: rest =>
      Except.ok
        { first := x,
          last := (x :: rest).getLast (List.cons_ne_nil x rest),
          sum_direct := (x :: rest).sum,
          sum_formula := (((x :: rest).length : ℚ) / 2)
            * (x + (x :: rest).getLast (List.cons_ne_nil x rest)) }

/-- The request-processing path of `main` (`src/app.py` lines 66-76):
`num_terms <= 0` is rejected with an error message before the generator
runs (lines 66-68), `num_terms > 1000` is rejected with a warning
(lines 70-72), and otherwise `generate_arithmetic_sequence` is invoked
(line 76). -/
def main_process (first_term common_difference : ℚ) (num_terms : ℤ) :
    Except AppError (List ℚ) :=
  if num_terms ≤ 0 then Except.error AppError.invalidInput
  else if 1000 < num_terms then Except.error AppError.tooManyTerms
  else Except.ok (generate_arithmetic_sequence first_term common_difference num_terms)

/-- Unfolding the append-accumulating fold of the generator into a map. -/
lemma foldl_append_singleton_eq_map (f : ℕ → ℚ) (l : List ℕ) (acc : List ℚ) :
    l.foldl (fun sequence i => sequence ++ [f i]) acc = acc ++ l.map f := by
  induction l generalizing acc with
  | nil => simp
  | cons x xs ih => simp [ih]

/-- The generator is the map of `fun i => a + i * d` over `range (toNat n)`. -/
lemma generate_eq_map (a d : ℚ) (n : ℤ) :
    generate_arithmetic_sequence a d n
      = (List.range n.toNat).map (fun (i : ℕ) => a + (i : ℚ) * d) := by
  unfold generate_arithmetic_sequence
  rw [foldl_append_singleton_eq_map (fun (i : ℕ) => a + (i : ℚ) * d)]
  simp

/-- Length of the generated sequence. -/
lemma generate_length (a d : ℚ) (n : ℤ) :
    (generate_arithmetic_sequence a d n).length = n.toNat := by
  rw [generate_eq_map]
  simp

/-- Elements of the generated sequence. -/
lemma generate_getElem (a d : ℚ) (n : ℤ) (i : ℕ)
    (h : i < (generate_arithmetic_sequence a d n).length) :
    (generate_arithmetic_sequence a d n)[i] = a + (i : ℚ) * d := by
  have h' : i < n.toNat := by
    rw [generate_length] at h
    exact h
  rw [List.getElem_of_eq (generate_eq_map a d n) h]
  simp

/-- Closed form for the direct sum of the mapped range. -/
lemma sum_map_range_arith (a d : ℚ) (m : ℕ) :
    ((List.range m).map (fun (i : ℕ) => a + (i : ℚ) * d)).sum
      = (m : ℚ) * a + ((m : ℚ) * ((m : ℚ) - 1) / 2) * d := by
  induction m with
  | zero => norm_num
  | succ k ih =>
      rw [List.range_succ]
      simp only [List.map_append, List.sum_append, ih, List.map_cons,
        List.map_nil, List.sum_cons, List.sum_nil]
      push_cast
      ring

/-- A sequence generated with at least one term is nonempty. -/
lemma generate_ne_nil (a d : ℚ) (n : ℤ) (hn : 1 ≤ n) :
    generate_arithmetic_sequence a d n ≠ [] := by
  intro h
  have hlen := generate_length a d n
  rw [h] at hlen
  simp only [List.length_nil] at hlen
  omega

/-- The first element of a generated sequence is the first term. -/
lemma generate_head (a d : ℚ) (n : ℤ)
    (h : generate_arithmetic_sequence a d n ≠ []) :
    (generate_arithmetic_sequence a d n).head h = a := by
  have h0 : 0 < (generate_arithmetic_sequence a d n).length :=
    List.length_pos.mpr h
  rw [List.head_eq_getElem_zero h]
  have he := generate_getElem a d n 0 h0
  simpa using he

/-- For `num_terms` between 0 and `n`, `toNat` casts back to `n` in `ℚ`. -/
lemma toNat_cast_rat (n : ℤ) (hn : 0 ≤ n) : ((n.toNat : ℚ)) = (n : ℚ) := by
  exact_mod_cast Int.toNat_of_nonneg hn

/-- The last element of a generated sequence with `1 ≤ n` terms is
`a + (n - 1) * d`. -/
lemma generate_getLast (a d : ℚ) (n : ℤ) (hn : 1 ≤ n)
    (h : generate_arithmetic_sequence a d n ≠ []) :
    (generate_arithmetic_sequence a d n).getLast h
      = a + ((n : ℚ) - 1) * d := by
  have hlen := generate_length a d n
  have hpos : 0 < (generate_arithmetic_sequence a d n).length := by
    rw [hlen]; omega
  have hlt : (generate_arithmetic_sequence a d n).length - 1
      < (generate_arithmetic_sequence a d n).length := by omega
  rw [List.getLast_eq_getElem]
  have he := generate_getElem a d n
    ((generate_arithmetic_sequence a d n).length - 1) hlt
  rw [he, hlen]
  have h1 : 1 ≤ n.toNat := by omega
  rw [Nat.cast_sub h1, toNat_cast_rat n (by omega)]
  norm_num

/-- Closed form for the direct sum of a generated sequence. -/
lemma generate_sum (a d : ℚ) (n : ℤ) (hn : 0 ≤ n) :
    (generate_arithmetic_sequence a d n).sum
      = (n : ℚ) * a + ((n : ℚ) * ((n : ℚ) - 1) / 2) * d := by
  rw [generate_eq_map, sum_map_range_arith, toNat_cast_rat n hn]

/-- On a nonempty list, `statistics` returns the four metrics of
`src/app.py` lines 124-136. -/
lemma statistics_of_ne_nil (l : List ℚ) (h : l ≠ []) :
    statistics l = Except.ok
      { first := l.head h,
        last := l.getLast h,
        sum_direct := l.sum,
        sum_formula := ((l.length : ℚ) / 2) * (l.head h + l.getLast h) } := by
  cases l with
  | nil => exact absurd rfl h
  | cons x rest => rfl

/-- Modelled from the spec, section 4.1: the SequenceEngine generate
operation as the spec describes it, whose error-condition clause says it
"fails with an InvalidInput error if num_terms < 1".  This definition
exists only to be compared with the code's
`generate_arithmetic_sequence`, which has no such failure path. -/
def generate_spec_engine (first_term common_difference : ℚ)
    (num_terms : ℤ) : Except AppError (List ℚ) :=
  if num_terms < 1 then Except.error AppError.invalidInput
  else Except.ok
    (generate_arithmetic_sequence first_term common_difference num_terms)

/-- Claim C1: for every sequence produced by generate with
num_terms >= 1, the statistics block succeeds and its direct sum
(sum_direct) equals the closed-form arithmetic-series sum
(num_terms/2) * (first + last) (sum_formula); in the exact-rational
model the two are equal, which subsumes agreement within any
floating-point tolerance. -/
theorem C1_sum_direct_eq_sum_formula (a d : ℚ) (n : ℤ) (hn : 1 ≤ n) :
    ∃ s : SequenceStatistics,
      statistics (generate_arithmetic_sequence a d n) = Except.ok s ∧
      s.sum_direct = s.sum_formula := by
  have hne := generate_ne_nil a d n hn
  refine ⟨_, statistics_of_ne_nil _ hne, ?_⟩
  dsimp only
  rw [generate_sum a d n (by omega), generate_head a d n hne,
    generate_getLast a d n hn hne, generate_length,
    toNat_cast_rat n (by omega)]
  ring

/-- Witness for C1 at the concrete input (1, 1, 10). -/
theorem C1_sum_direct_eq_sum_formula_witness :
    ∃ s : SequenceStatistics,
      statistics (generate_arithmetic_sequence 1 1 10) = Except.ok s ∧
      s.sum_direct = s.sum_formula :=
  C1_sum_direct_eq_sum_formula 1 1 10 (by decide)

/-- Claim C2: for every request and every index i within the produced
sequence, the i-th element (0-indexed) equals
first_term + i * common_difference; for a valid request the sequence
has num_terms elements, so this covers every i in [0, num_terms). -/
theorem C2_ith_element (first_term common_difference : ℚ)
    (num_terms : ℤ) (i : ℕ)
    (h : i < (generate_arithmetic_sequence first_term common_difference
      num_terms).length) :
    (generate_arithmetic_sequence first_term common_difference num_terms)[i]
      = first_term + (i : ℚ) * common_difference :=
  generate_getElem first_term common_difference num_terms i h

/-- Witness for C2 at the concrete input (1, 1, 10), index 2. -/
theorem C2_ith_element_witness :
    (generate_arithmetic_sequence 1 1 10).get
        ⟨2, by rw [generate_length]; decide⟩
      = 1 + (2 : ℚ) * 1 := by
  rw [List.get_eq_getElem]
  exact C2_ith_element 1 1 10 2 (by rw [generate_length]; decide)

/-- Claim C3: for every valid request with num_terms >= 1, the list
returned by generate has length exactly num_terms. -/
theorem C3_length_eq_num_terms (first_term common_difference : ℚ)
    (num_terms : ℤ) (hn : 1 ≤ num_terms) :
    ((generate_arithmetic_sequence first_term common_difference
      num_terms).length : ℤ) = num_terms := by
  rw [generate_length]
  omega

/-- Witness for C3 at the concrete input (1, 1, 10). -/
theorem C3_length_eq_num_terms_witness :
    ((generate_arithmetic_sequence 1 1 10).length : ℤ) = 10 :=
  C3_length_eq_num_terms 1 1 10 (by decide)

/-- Counterexample to claim C4 as stated: at num_terms = 0,
`generate_arithmetic_sequence` does not fail with an InvalidInput
error; it returns the empty list as a normal result (the loop over
`range(0)` performs zero iterations), diverging from the engine the
spec describes, which errors there. -/
theorem C4_counterexample :
    generate_arithmetic_sequence 1 1 0 = [] ∧
    generate_spec_engine 1 1 0 = Except.error AppError.invalidInput :=
  ⟨rfl, rfl⟩

/-- Claim C4 (amended): whenever num_terms < 1, the application's
request-processing path in `main` rejects the request with the
invalid-input error before the generator runs, producing no sequence;
the generate function itself does not fail there but returns the empty
list. -/
theorem C4_main_rejects_nonpositive (a d : ℚ) (n : ℤ) (hn : n < 1) :
    main_process a d n = Except.error AppError.invalidInput ∧
    generate_arithmetic_sequence a d n = [] := by
  constructor
  · unfold main_process
    rw [if_pos (by omega : n ≤ 0)]
  · rw [generate_eq_map]
    have h0 : n.toNat = 0 := by omega
    rw [h0]
    rfl

/-- Witness for the amended C4 at the concrete input (1, 1, 0). -/
theorem C4_main_rejects_nonpositive_witness :
    main_process 1 1 0 = Except.error AppError.invalidInput ∧
    generate_arithmetic_sequence 1 1 0 = [] :=
  C4_main_rejects_nonpositive 1 1 0 (by decide)

/-- Claim C5: the statistics computation fails with the empty-sequence
error when given a zero-length sequence, computing none of first, last,
sum_direct, sum_formula. -/
theorem C5_statistics_empty_fails :
    statistics [] = Except.error AppError.emptySequence :=
  rfl

/-- Claim C6: generate is deterministic and pure; two calls with
identical inputs yield identical output sequences, with no dependence
on hidden state (the embedding of the source function depends only on
its three arguments). -/
theorem C6_deterministic (a1 d1 : ℚ) (n1 : ℤ) (a2 d2 : ℚ) (n2 : ℤ)
    (ha : a1 = a2) (hd : d1 = d2) (hn : n1 = n2) :
    generate_arithmetic_sequence a1 d1 n1
      = generate_arithmetic_sequence a2 d2 n2 := by
  rw [ha, hd, hn]

/-- Witness for C6 at the concrete input (1, 1, 10). -/
theorem C6_deterministic_witness :
    generate_arithmetic_sequence 1 1 10
      = generate_arithmetic_sequence 1 1 10 :=
  C6_deterministic 1 1 10 1 1 10 rfl rfl rfl

/-- Claim C7: in every generated sequence, each term after the first
differs from its predecessor by exactly common_difference. -/
theorem C7_successive_difference (a d : ℚ) (n : ℤ) (i : ℕ)
    (h : i + 1 < (generate_arithmetic_sequence a d n).length) :
    (generate_arithmetic_sequence a d n).get ⟨i + 1, h⟩
      - (generate_arithmetic_sequence a d n).get ⟨i, by omega⟩ = d := by
  have h1 := generate_getElem a d n (i + 1) h
  have h2 := generate_getElem a d n i (by omega)
  rw [List.get_eq_getElem, List.get_eq_getElem, h1, h2]
  push_cast
  ring

/-- Witness for C7 at the concrete input (5, -2, 4), index 0. -/
theorem C7_successive_difference_witness :
    (generate_arithmetic_sequence 5 (-2) 4).get
        ⟨0 + 1, by rw [generate_length]; decide⟩
      - (generate_arithmetic_sequence 5 (-2) 4).get
        ⟨0, by rw [generate_length]; decide⟩ = -2 :=
  C7_successive_difference 5 (-2) 4 0 (by rw [generate_length]; decide)

/-- Claim C8: generate(1, 1, 10) returns exactly [1,...,10], and on
that sequence the statistics block yields sum_direct = 55 and
sum_formula = 55 (with first = 1 and last = 10). -/
theorem C8_example_one_to_ten :
    generate_arithmetic_sequence 1 1 10
      = [1, 2, 3, 4, 5, 6, 7, 8, 9, 10] ∧
    statistics (generate_arithmetic_sequence 1 1 10)
      = Except.ok
          { first := 1, last := 10, sum_direct := 55, sum_formula := 55 } := by
  have hgen : generate_arithmetic_sequence 1 1 10
      = [1, 2, 3, 4, 5, 6, 7, 8, 9, 10] := by
    rw [generate_eq_map]
    norm_num [show Int.toNat 10 = 10 from rfl,
      show List.range 10 = [0, 1, 2, 3, 4, 5, 6, 7, 8, 9] from rfl]
  refine ⟨hgen, ?_⟩
  rw [hgen]
  norm_num [statistics, List.getLast, Except.ok.injEq,
    SequenceStatistics.mk.injEq]

/-- Claim C9: generate(5, -2, 4) returns exactly [5, 3, 1, -1], and the
sum of that sequence is 8. -/
theorem C9_example_five_step_neg_two :
    generate_arithmetic_sequence 5 (-2) 4 = [5, 3, 1, -1] ∧
    (generate_arithmetic_sequence 5 (-2) 4).sum = 8 := by
  have hgen : generate_arithmetic_sequence 5 (-2) 4 = [5, 3, 1, -1] := by
    rw [generate_eq_map]
    norm_num [show Int.toNat 4 = 4 from rfl,
      show List.range 4 = [0, 1, 2, 3] from rfl]
  refine ⟨hgen, ?_⟩
  rw [hgen]
  norm_num

/-- Claim C10: generate is total over all integer num_terms; for every
num_terms <= 0 it returns the empty list and signals no error (the
loop over range(num_terms) performs zero iterations). -/
theorem C10_nonpositive_returns_empty (a d : ℚ) (n : ℤ) (hn : n ≤ 0) :
    generate_arithmetic_sequence a d n = [] := by
  rw [generate_eq_map]
  have h0 : n.toNat = 0 := by omega
  rw [h0]
  rfl

/-- Witness for C10 at the concrete input (2, 3, -5). -/
theorem C10_nonpositive_returns_empty_witness :
    generate_arithmetic_sequence 2 3 (-5) = [] :=
  C10_nonpositive_returns_empty 2 3 (-5) (by decide)
